import Mathlib

/-!
Verification of the exrio image/layer/channel data model and its
pixel-tensor marshalling and colorspace-inference logic, shallowly
embedded from `src/exrio/image.py`.

Modelling conventions:
- A numeric sample is represented by its bit pattern as a `Nat`.  The
  marshaller never performs arithmetic on samples (the only dtype change,
  `astype(uint32)` on a `uint8` array, is value preserving), so this is a
  faithful injective encoding.
- Chromaticity coordinates are decimal literals with at most five decimal
  places in the source; we store them as integers scaled by 10^5, an
  injective encoding on which the code only ever tests exact equality.
- A numpy `ndarray` is modelled by its dtype, its shape, and its row-major
  flat data.
- Python `assert` failures and `raise` sites are modelled with `Except`;
  each error value is named after the error kind of the design document.
-/

/-- Numpy dtypes that appear in the code paths under study. -/
inductive Dtype where
  | float16
  | float32
  | uint32
  | uint8
deriving DecidableEq, Repr

/-- The three EXR sample types (HALF, FLOAT, UINT) that a channel of a
decoded EXR file can carry. -/
inductive SampleDtype where
  | float16
  | float32
  | uint32
deriving DecidableEq, Repr

def SampleDtype.toDtype : SampleDtype → Dtype
  | .float16 => .float16
  | .float32 => .float32
  | .uint32 => .uint32

/-- Checked conversion used where the code asserts
`dtype in [np.float16, np.float32, np.uint32]`. -/
def Dtype.toSample? : Dtype → Option SampleDtype
  | .float16 => some .float16
  | .float32 => some .float32
  | .uint32 => some .uint32
  | .uint8 => none

/-- Attribute values: the attribute dictionaries hold strings and the
integer container flag. -/
inductive AttrValue where
  | str (s : String)
  | int (n : Int)
deriving DecidableEq, Repr

/-- Four (x, y) primaries; coordinates scaled by 10^5 (see header). -/
structure Chromaticities where
  red : Int × Int
  green : Int × Int
  blue : Int × Int
  white : Int × Int
deriving DecidableEq, Repr

/-- AP0 primaries, from PRIMARY_CHROMATICITIES in the source. -/
def chromaticitiesAP0 : Chromaticities :=
  { red := (73470, 26530), green := (0, 100000),
    blue := (10, -7700), white := (32168, 33767) }

/-- AP1 primaries, from PRIMARY_CHROMATICITIES in the source. -/
def chromaticitiesAP1 : Chromaticities :=
  { red := (71300, 29300), green := (16500, 83000),
    blue := (12800, 4400), white := (32168, 33767) }

/-- sRGB primaries, from PRIMARY_CHROMATICITIES in the source. -/
def chromaticitiesSRGB : Chromaticities :=
  { red := (64000, 33000), green := (30000, 60000),
    blue := (15000, 6000), white := (31270, 32900) }

/-- The PRIMARY_CHROMATICITIES table of the source. -/
def PRIMARY_CHROMATICITIES : List (String × Chromaticities) :=
  [("AP0", chromaticitiesAP0), ("AP1", chromaticitiesAP1),
   ("sRGB", chromaticitiesSRGB)]

/-- The Colorspace enum of the source. -/
inductive Colorspace where
  | sRGB
  | ACES
  | ACEScg
  | ACEScct
deriving DecidableEq, Repr

/-- The string value each Colorspace enum member carries in the source. -/
def Colorspace.value : Colorspace → String
  | .sRGB => "sRGB"
  | .ACES => "ACES 2065-1"
  | .ACEScg => "ACEScg"
  | .ACEScct => "ACEScct"

/-- Error kinds of the design document; each models a concrete Python
assert or raise site. -/
inductive ExrError where
  | shapeMismatch
  | arityMismatch
  | unsupportedDtype
  | unsupportedChannelCount
  | ambiguousLayerReference
  | valueError
deriving DecidableEq, Repr

/-- A numpy ndarray: dtype, shape, row-major flat data (see header). -/
structure NDArray where
  dtype : Dtype
  shape : List Nat
  data : List Nat
deriving DecidableEq, Repr

/-- ExrChannel of the source.  `pixels` is kept in row-major flat form;
the source stores either a flat or an (height, width) view, and every
consumer either flattens it or reshapes it, so the flat form is the
faithful common denominator. -/
structure ExrChannel where
  name : String
  width : Nat
  height : Nat
  dtype : Dtype
  pixels : List Nat
deriving DecidableEq, Repr

/-- ExrLayer of the source. -/
structure ExrLayer where
  width : Nat
  height : Nat
  channels : List ExrChannel
  name : Option String
  attributes : List (String × AttrValue)
  chromaticities : Option Chromaticities
deriving DecidableEq, Repr

/-- ExrImage of the source. -/
structure ExrImage where
  layers : List ExrLayer
  attributes : List (String × AttrValue)
deriving DecidableEq, Repr

/-- Models `pixels[..., idx].flatten()` on an array of shape
(height * width rows, c channels): sample i of the extracted plane sits at
flat position i * c + idx. -/
def ndSelectChannel (data : List Nat) (c idx n : Nat) : List Nat :=
  (List.range n).map (fun i => data.getD (i * c + idx) 0)

/-- Models `np.stack(planes, axis=-1)` on `planes`, each a flattened
(height, width) plane of n = height * width samples, flattened back to
row-major order: output position i * planes.length + k holds sample i of
plane k.  Composing `reshape(h, w)` before the stack and flattening after
it leaves these indices unchanged, so the reshapes are elided. -/
def npStackLastAxis (n : Nat) (planes : List (List Nat)) : List Nat :=
  (List.range n).flatMap (fun i => planes.map (fun p => p.getD i 0))

/-- ExrImage.to_pixels of the source: asserts the image has exactly one
layer, reshapes each channel to (height, width) and stacks the channels
along a new last axis.  `np.stack` of an empty sequence raises, and a
reshape of a wrongly sized buffer raises, both modelled as errors.  The
result dtype is the dtype shared by the channels (the source relies on the
channels of a layer agreeing on dtype). -/
def ExrImage.to_pixels (img : ExrImage) : Except ExrError NDArray :=
  match img.layers with
  | [layer] =>
    match layer.channels with
    | [] => .error .valueError
    | ch0 :: _ =>
      if ∀ ch ∈ layer.channels, ch.pixels.length = layer.height * layer.width then
        .ok { dtype := ch0.dtype,
              shape := [layer.height, layer.width, layer.channels.length],
              data := npStackLastAxis (layer.height * layer.width)
                        (layer.channels.map (fun ch => ch.pixels)) }
      else .error .shapeMismatch
  | _ => .error .ambiguousLayerReference

/-- The channel names "RGBA"[:channel_count] of the source. -/
def rgbaNames (channelCount : Nat) : List String :=
  (["R", "G", "B", "A"]).take channelCount

/-- ExrImage._from_pixels of the source: checks dtype, unpacks the shape
as (height, width, channel_count) (a non rank-3 shape raises ValueError),
checks channel_count in [3, 4], builds one channel per index from
`pixels[..., idx].flatten()`, wraps them in a single layer carrying the
given chromaticities, and stamps the attribute
"Aces Image Container Flag" = 1 on the image. -/
def ExrImage.fromPixelsCore (pixels : NDArray) (chromaticities : Chromaticities) :
    Except ExrError ExrImage :=
  if pixels.dtype = Dtype.float16 ∨ pixels.dtype = Dtype.float32 ∨
      pixels.dtype = Dtype.uint32 then
    match pixels.shape with
    | [height, width, channel_count] =>
      if channel_count = 3 ∨ channel_count = 4 then
        let channels : List ExrChannel :=
          (rgbaNames channel_count).enum.map (fun p =>
            { name := p.2, width := width, height := height,
              dtype := pixels.dtype,
              pixels := ndSelectChannel pixels.data channel_count p.1
                          (height * width) })
        let layer : ExrLayer :=
          { width := width, height := height, channels := channels,
            name := none, attributes := [],
            chromaticities := some chromaticities }
        .ok { layers := [layer],
              attributes := [("Aces Image Container Flag", AttrValue.int 1)] }
      else .error .unsupportedChannelCount
    | _ => .error .valueError
  else .error .unsupportedDtype

/-- ExrImage.from_pixels_aces of the source: asserts float16 or float32,
then delegates with the AP0 primaries. -/
def ExrImage.from_pixels_aces (pixels : NDArray) : Except ExrError ExrImage :=
  if pixels.dtype = Dtype.float16 ∨ pixels.dtype = Dtype.float32 then
    ExrImage.fromPixelsCore pixels chromaticitiesAP0
  else .error .unsupportedDtype

/-- ExrImage.from_pixels_acescg of the source: asserts float16 or float32,
then delegates with the AP1 primaries. -/
def ExrImage.from_pixels_acescg (pixels : NDArray) : Except ExrError ExrImage :=
  if pixels.dtype = Dtype.float16 ∨ pixels.dtype = Dtype.float32 then
    ExrImage.fromPixelsCore pixels chromaticitiesAP1
  else .error .unsupportedDtype

/-- ExrImage.from_pixels_acescct of the source: asserts float16 or
float32, then delegates with the AP1 primaries. -/
def ExrImage.from_pixels_acescct (pixels : NDArray) : Except ExrError ExrImage :=
  if pixels.dtype = Dtype.float16 ∨ pixels.dtype = Dtype.float32 then
    ExrImage.fromPixelsCore pixels chromaticitiesAP1
  else .error .unsupportedDtype

/-- ExrImage.from_pixels_srgb of the source: promotes uint8 to uint32
(`astype` on uint8 data is value preserving, so the flat data is
unchanged), then delegates with the sRGB primaries. -/
def ExrImage.from_pixels_srgb (pixels : NDArray) : Except ExrError ExrImage :=
  let promoted :=
    if pixels.dtype = Dtype.uint8 then
      { pixels with dtype := Dtype.uint32 }
    else pixels
  ExrImage.fromPixelsCore promoted chromaticitiesSRGB

/-- ExrImage.from_pixels of the source: dispatches on the colorspace
(default sRGB at the call sites that omit it). -/
def ExrImage.from_pixels (pixels : NDArray) (colorspace : Colorspace) :
    Except ExrError ExrImage :=
  match colorspace with
  | .ACES => ExrImage.from_pixels_aces pixels
  | .ACEScg => ExrImage.from_pixels_acescg pixels
  | .ACEScct => ExrImage.from_pixels_acescct pixels
  | .sRGB => ExrImage.from_pixels_srgb pixels

/-- One channel of the raw codec container: name, sample dtype, flat
samples.  The dtype is a SampleDtype because an EXR channel is typed
HALF, FLOAT or UINT in the format itself. -/
structure RustChannelData where
  name : String
  dtype : SampleDtype
  pixels : List Nat
deriving DecidableEq, Repr

/-- The raw layer structure exchanged with the codec (RustLayer). -/
structure RustLayer where
  name : Option String
  width : Option Nat
  height : Option Nat
  attributes : List (String × AttrValue)
  channelsData : List RustChannelData
deriving DecidableEq, Repr

/-- The raw image structure exchanged with the codec (RustImage). -/
structure RustImage where
  attributes : List (String × AttrValue)
  rustLayers : List RustLayer
deriving DecidableEq, Repr

/-- Modelled from the spec: the binary codec (the exrio._rust extension)
is an external collaborator whose sources are not part of the model
layer.  Per the Codec Adapter contract it preserves channel name strings,
per-channel dtype, attribute key/value pairs, chromaticity values and the
caller-supplied channel order, normalizing any internal storage
permutation back before returning.  We therefore model the byte buffer by
the raw container itself, with save and load forming an identity round
trip on it. -/
def RustImage.save_to_buffer (img : RustImage) : RustImage := img

/-- Modelled from the spec: see RustImage.save_to_buffer. -/
def RustImage.load_from_buffer (buffer : RustImage) : RustImage := buffer

/-- Effectful map used to model Python for-loops that can raise on each
element. -/
def mapExcept (f : α → Except ExrError β) : List α → Except ExrError (List β)
  | [] => .ok []
  | x :: xs =>
    match f x with
    | .error e => .error e
    | .ok y =>
      match mapExcept f xs with
      | .error e => .error e
      | .ok ys => .ok (y :: ys)

/-- ExrLayer._to_rust of the source: builds a RustLayer with the layer
name, width, height and attributes, then pushes each channel in stored
order, asserting its dtype is float16, float32 or uint32.
`flatten()` and `copy(order="C")` are identities on our flat buffers. -/
def ExrLayer.to_rust (l : ExrLayer) : Except ExrError RustLayer :=
  match mapExcept (fun ch =>
    match ch.dtype.toSample? with
    | some sd => .ok ({ name := ch.name, dtype := sd, pixels := ch.pixels } :
        RustChannelData)
    | none => .error .unsupportedDtype) l.channels with
  | .error e => .error e
  | .ok channelsData =>
    .ok { name := l.name, width := some l.width, height := some l.height,
          attributes := l.attributes, channelsData := channelsData }

/-- _pixels_from_layer plus ExrLayer._from_rust of the source: asserts
width and height are present, reshapes each raw channel buffer to
(height, width) (raising if the sample count is wrong), and rebuilds the
channels in the order the codec returned them. -/
def ExrLayer.from_rust (r : RustLayer) : Except ExrError ExrLayer :=
  match r.width, r.height with
  | some width, some height =>
    if ∀ cd ∈ r.channelsData, cd.pixels.length = height * width then
      .ok { width := width, height := height,
            channels := r.channelsData.map (fun cd =>
              { name := cd.name, width := width, height := height,
                dtype := cd.dtype.toDtype, pixels := cd.pixels }),
            name := r.name, attributes := r.attributes,
            chromaticities := none }
    else .error .shapeMismatch
  | _, _ => .error .valueError

/-- ExrImage._to_rust of the source: a RustImage carrying the image
attributes and each layer converted in order. -/
def ExrImage.to_rust (img : ExrImage) : Except ExrError RustImage :=
  match mapExcept ExrLayer.to_rust img.layers with
  | .error e => .error e
  | .ok rls => .ok { attributes := img.attributes, rustLayers := rls }

/-- ExrImage._from_rust of the source. -/
def ExrImage.from_rust (r : RustImage) : Except ExrError ExrImage :=
  match mapExcept ExrLayer.from_rust r.rustLayers with
  | .error e => .error e
  | .ok ls => .ok { layers := ls, attributes := r.attributes }

/-- ExrImage.to_buffer of the source: convert to the raw container and
encode it. -/
def ExrImage.to_buffer (img : ExrImage) : Except ExrError RustImage :=
  match img.to_rust with
  | .error e => .error e
  | .ok r => .ok r.save_to_buffer

/-- ExrImage.from_buffer of the source: decode the buffer and rebuild the
model. -/
def ExrImage.from_buffer (buffer : RustImage) : Except ExrError ExrImage :=
  ExrImage.from_rust buffer.load_from_buffer

/-- Modelled from the spec: the reserved container-flag attribute key.
The Colorspace Classifier (the inferred_colorspace property exercised by
the tests) is absent from the model-layer sources in src, so it is
modelled from the design document: explicit tagging uses a single
reserved metadata key whose value names the colorspace. -/
def containerFlagKey : String := "exrio:colorspace"

/-- Modelled from the spec: a container-flag value is recognized when it
is the string value of one of the known Colorspace tags. -/
def tagOfFlagValue : AttrValue → Option Colorspace
  | .str s =>
    if s = Colorspace.sRGB.value then some .sRGB
    else if s = Colorspace.ACES.value then some .ACES
    else if s = Colorspace.ACEScg.value then some .ACEScg
    else if s = Colorspace.ACEScct.value then some .ACEScct
    else none
  | .int _ => none

/-- Modelled from the spec: the first recognized container flag in an
attribute mapping. -/
def findContainerFlag (attrs : List (String × AttrValue)) : Option Colorspace :=
  attrs.findSome? (fun p =>
    if p.1 = containerFlagKey then tagOfFlagValue p.2 else none)

/-- Modelled from the spec: chromaticity matching, tier two of the
classifier.  Exact equality against the chromaticity table; AP0 classifies
as ACES 2065-1, AP1 as ACEScg (the flag-less default for AP1), the sRGB
primaries as sRGB. -/
def tagOfChromaticities (c : Chromaticities) : Option Colorspace :=
  if c = chromaticitiesAP0 then some .ACES
  else if c = chromaticitiesAP1 then some .ACEScg
  else if c = chromaticitiesSRGB then some .sRGB
  else none

/-- Modelled from the spec: the Colorspace Classifier
(inferred_colorspace), absent from the model-layer sources in src.
Priority order, first match wins: (1) a recognized container-flag
attribute on the Image or on one of its Layers returns that tag directly;
(2) otherwise the first Layer chromaticities present are compared against
the table by exact equality; (3) otherwise the result is none, meaning
unknown, which is not an error. -/
def ExrImage.inferred_colorspace (img : ExrImage) : Option Colorspace :=
  match findContainerFlag img.attributes with
  | some t => some t
  | none =>
    match img.layers.findSome? (fun l => findContainerFlag l.attributes) with
    | some t => some t
    | none =>
      match img.layers.findSome? (fun l => l.chromaticities) with
      | some c => tagOfChromaticities c
      | none => none

lemma ndSelectChannel_length (data : List Nat) (c idx n : Nat) :
    (ndSelectChannel data c idx n).length = n := by
  simp [ndSelectChannel]

lemma ndSelectChannel_getD (data : List Nat) (c idx n i : Nat) (h : i < n) :
    (ndSelectChannel data c idx n).getD i 0 = data.getD (i * c + idx) 0 := by
  have hlt : i < (ndSelectChannel data c idx n).length := by
    simpa [ndSelectChannel_length] using h
  rw [List.getD_eq_getElem _ _ hlt]
  simp [ndSelectChannel]

lemma npStackLastAxis_length (n : Nat) (planes : List (List Nat)) :
    (npStackLastAxis n planes).length = n * planes.length := by
  induction n with
  | zero => simp [npStackLastAxis]
  | succ m ih =>
    have hsplit : npStackLastAxis (m + 1) planes =
        npStackLastAxis m planes ++ planes.map (fun p => p.getD m 0) := by
      simp [npStackLastAxis, List.range_succ, List.flatMap_append]
    rw [hsplit, List.length_append, ih, List.length_map, Nat.succ_mul]

lemma npStackLastAxis_getD (n : Nat) (planes : List (List Nat)) (i k : Nat)
    (hi : i < n) (hk : k < planes.length) :
    (npStackLastAxis n planes).getD (i * planes.length + k) 0 =
      (planes.getD k []).getD i 0 := by
  induction n with
  | zero => exact absurd hi (Nat.not_lt_zero i)
  | succ m ih =>
    have hsplit : npStackLastAxis (m + 1) planes =
        npStackLastAxis m planes ++ planes.map (fun p => p.getD m 0) := by
      simp [npStackLastAxis, List.range_succ, List.flatMap_append]
    rw [hsplit]
    rcases Nat.lt_or_ge i m with him | him
    · have hpos : i * planes.length + k < (npStackLastAxis m planes).length := by
        rw [npStackLastAxis_length]
        calc i * planes.length + k < i * planes.length + planes.length := by
              exact Nat.add_lt_add_left hk _
          _ = (i + 1) * planes.length := by ring
          _ ≤ m * planes.length := Nat.mul_le_mul_right _ him
      rw [List.getD_append _ _ _ _ hpos]
      exact ih him
    · have hieq : i = m := Nat.le_antisymm (Nat.lt_succ_iff.mp hi) him
      subst hieq
      have hge : (npStackLastAxis i planes).length ≤ i * planes.length + k := by
        rw [npStackLastAxis_length]
        exact Nat.le_add_right _ _
      rw [List.getD_append_right _ _ _ _ hge, npStackLastAxis_length]
      have : i * planes.length + k - i * planes.length = k := by omega
      rw [this]
      have hkm : k < (planes.map (fun p => p.getD i 0)).length := by
        simpa using hk
      rw [List.getD_eq_getElem _ _ hkm, List.getElem_map,
        List.getD_eq_getElem planes [] hk]

lemma stack_select_roundtrip (data : List Nat) (n c : Nat) (hc : 0 < c)
    (hlen : data.length = n * c) :
    npStackLastAxis n ((List.range c).map (fun k => ndSelectChannel data c k n)) =
      data := by
  have hplanes : ((List.range c).map (fun k => ndSelectChannel data c k n)).length = c := by
    simp
  apply List.ext_getElem
  · rw [npStackLastAxis_length, hplanes, hlen]
  · intro p h1 h2
    have hp : p < n * c := by rwa [hlen] at h2
    have hi : p / c < n := (Nat.div_lt_iff_lt_mul hc).mpr hp
    have hk : p % c < c := Nat.mod_lt _ hc
    have hdecomp : (p / c) * c + p % c = p := by
      rw [Nat.mul_comm]
      exact Nat.div_add_mod p c
    have hgd : (npStackLastAxis n ((List.range c).map (fun k => ndSelectChannel data c k n))).getD p 0 = data.getD p 0 := by
      conv_lhs => rw [← hdecomp]
      rw [show (p / c) * c = (p / c) * ((List.range c).map (fun k => ndSelectChannel data c k n)).length by rw [hplanes]]
      rw [npStackLastAxis_getD _ _ _ _ hi (by rw [hplanes]; exact hk)]
      have hkm : p % c <
          ((List.range c).map (fun k => ndSelectChannel data c k n)).length := by
        simpa using hk
      rw [List.getD_eq_getElem _ _ hkm, List.getElem_map, List.getElem_range]
      rw [ndSelectChannel_getD _ _ _ _ _ hi, hdecomp]
    rw [List.getD_eq_getElem _ _ h1, List.getD_eq_getElem _ _ h2] at hgd
    exact hgd

lemma rgbaNames_length (c : Nat) (hc : c ≤ 4) : (rgbaNames c).length = c := by
  simp [rgbaNames]
  omega

lemma enum_map_fst_apply {α β : Type} (l : List α) (g : Nat → β) :
    l.enum.map (fun p => g p.1) = (List.range l.length).map g := by
  have : (fun p : Nat × α => g p.1) = g ∘ Prod.fst := rfl
  rw [this, ← List.map_map, List.enum_map_fst]

/-- The channel list that ExrImage._from_pixels builds for a rank-3 array
of the given dtype, spatial size and channel count (one channel per index
of "RGBA"[:c], each holding `pixels[..., idx].flatten()`). -/
def fromPixelsChannels (dt : Dtype) (h w c : Nat) (data : List Nat) :
    List ExrChannel :=
  (rgbaNames c).enum.map (fun p =>
    { name := p.2, width := w, height := h, dtype := dt,
      pixels := ndSelectChannel data c p.1 (h * w) })

/-- The single layer that ExrImage._from_pixels builds. -/
def fromPixelsLayer (dt : Dtype) (h w c : Nat) (data : List Nat)
    (cr : Chromaticities) : ExrLayer :=
  { width := w, height := h, channels := fromPixelsChannels dt h w c data,
    name := none, attributes := [], chromaticities := some cr }

/-- The image that ExrImage._from_pixels builds. -/
def fromPixelsImage (dt : Dtype) (h w c : Nat) (data : List Nat)
    (cr : Chromaticities) : ExrImage :=
  { layers := [fromPixelsLayer dt h w c data cr],
    attributes := [("Aces Image Container Flag", AttrValue.int 1)] }

lemma fromPixelsCore_ok (dt : Dtype) (h w c : Nat) (data : List Nat)
    (cr : Chromaticities)
    (hdt : dt = Dtype.float16 ∨ dt = Dtype.float32 ∨ dt = Dtype.uint32)
    (hc : c = 3 ∨ c = 4) :
    ExrImage.fromPixelsCore ⟨dt, [h, w, c], data⟩ cr =
      .ok (fromPixelsImage dt h w c data cr) := by
  rcases hdt with rfl | rfl | rfl <;> rcases hc with rfl | rfl <;>
    simp [ExrImage.fromPixelsCore, fromPixelsImage, fromPixelsLayer,
      fromPixelsChannels]

lemma range_three : List.range 3 = [0, 1, 2] := by decide

lemma range_four : List.range 4 = [0, 1, 2, 3] := by decide

lemma enum_rgb : (["R", "G", "B"] : List String).enum =
    [(0, "R"), (1, "G"), (2, "B")] := rfl

lemma enum_rgba : (["R", "G", "B", "A"] : List String).enum =
    [(0, "R"), (1, "G"), (2, "B"), (3, "A")] := rfl

lemma to_pixels_fromPixelsImage (dt : Dtype) (h w c : Nat) (data : List Nat)
    (cr : Chromaticities) (hc : c = 3 ∨ c = 4)
    (hlen : data.length = h * w * c) :
    ExrImage.to_pixels (fromPixelsImage dt h w c data cr) =
      .ok ⟨dt, [h, w, c], data⟩ := by
  have hcpos : 0 < c := by omega
  have hstack := stack_select_roundtrip data (h * w) c hcpos (by rw [hlen])
  rcases hc with rfl | rfl
  · rw [range_three] at hstack
    simp only [List.map_cons, List.map_nil] at hstack
    simp [ExrImage.to_pixels, fromPixelsImage, fromPixelsLayer,
      fromPixelsChannels, rgbaNames, enum_rgb, ndSelectChannel_length, hstack]
  · rw [range_four] at hstack
    simp only [List.map_cons, List.map_nil] at hstack
    simp [ExrImage.to_pixels, fromPixelsImage, fromPixelsLayer,
      fromPixelsChannels, rgbaNames, enum_rgba, ndSelectChannel_length, hstack]

lemma mapExcept_eq_map {α β : Type} (f : α → Except ExrError β) (g : α → β)
    (xs : List α) (h : ∀ x ∈ xs, f x = .ok (g x)) :
    mapExcept f xs = .ok (xs.map g) := by
  induction xs with
  | nil => simp [mapExcept]
  | cons a as ih =>
    have ha := h a (List.mem_cons_self a as)
    have has : ∀ x ∈ as, f x = .ok (g x) := fun x hx => h x (List.mem_cons_of_mem a hx)
    simp only [mapExcept, ha, ih has, List.map_cons]

/-- Total proof-side representative of the checked sample-dtype
conversion; under the dtype precondition it agrees with Dtype.toSample?. -/
def dtypeAsSample (d : Dtype) : SampleDtype :=
  (d.toSample?).getD SampleDtype.float32

lemma toSample?_eq_of_mem (d : Dtype)
    (hd : d = Dtype.float16 ∨ d = Dtype.float32 ∨ d = Dtype.uint32) :
    d.toSample? = some (dtypeAsSample d) := by
  rcases hd with rfl | rfl | rfl <;> rfl

lemma toDtype_dtypeAsSample (d : Dtype)
    (hd : d = Dtype.float16 ∨ d = Dtype.float32 ∨ d = Dtype.uint32) :
    (dtypeAsSample d).toDtype = d := by
  rcases hd with rfl | rfl | rfl <;> rfl

lemma toDtype_mem (sd : SampleDtype) :
    sd.toDtype = Dtype.float16 ∨ sd.toDtype = Dtype.float32 ∨
      sd.toDtype = Dtype.uint32 := by
  cases sd <;> simp [SampleDtype.toDtype]

/-- The raw layer ExrLayer._to_rust produces when every channel dtype
passes the assert. -/
def rustLayerOf (l : ExrLayer) : RustLayer :=
  { name := l.name, width := some l.width, height := some l.height,
    attributes := l.attributes,
    channelsData := l.channels.map (fun ch =>
      { name := ch.name, dtype := dtypeAsSample ch.dtype,
        pixels := ch.pixels }) }

lemma to_rust_ok (l : ExrLayer)
    (hd : ∀ ch ∈ l.channels, ch.dtype = Dtype.float16 ∨
      ch.dtype = Dtype.float32 ∨ ch.dtype = Dtype.uint32) :
    ExrLayer.to_rust l = .ok (rustLayerOf l) := by
  have hmap := mapExcept_eq_map
    (fun ch : ExrChannel =>
      match ch.dtype.toSample? with
      | some sd => .ok ({ name := ch.name, dtype := sd, pixels := ch.pixels } :
          RustChannelData)
      | none => .error .unsupportedDtype)
    (fun ch : ExrChannel =>
      ({ name := ch.name, dtype := dtypeAsSample ch.dtype,
         pixels := ch.pixels } : RustChannelData))
    l.channels
    (by
      intro ch hch
      have hs := toSample?_eq_of_mem ch.dtype (hd ch hch)
      simp only [hs])
  simp only [ExrLayer.to_rust, hmap]
  rfl

/-- The layer ExrLayer._from_rust rebuilds from rustLayerOf. -/
def layerViaRust (l : ExrLayer) : ExrLayer :=
  { width := l.width, height := l.height,
    channels := l.channels.map (fun ch =>
      { name := ch.name, width := l.width, height := l.height,
        dtype := (dtypeAsSample ch.dtype).toDtype, pixels := ch.pixels }),
    name := l.name, attributes := l.attributes, chromaticities := none }

lemma from_rust_rustLayerOf (l : ExrLayer)
    (hl : ∀ ch ∈ l.channels, ch.pixels.length = l.height * l.width) :
    ExrLayer.from_rust (rustLayerOf l) = .ok (layerViaRust l) := by
  have hcond : ∀ cd ∈ (rustLayerOf l).channelsData,
      cd.pixels.length = l.height * l.width := by
    intro cd hcd
    simp only [rustLayerOf, List.mem_map] at hcd
    obtain ⟨ch, hch, rfl⟩ := hcd
    exact hl ch hch
  simp only [ExrLayer.from_rust, rustLayerOf] at *
  rw [if_pos hcond]
  simp [layerViaRust, List.map_map, Function.comp]

lemma mapExcept_map {α β γ : Type} (f : β → Except ExrError γ) (g : α → β)
    (xs : List α) :
    mapExcept f (xs.map g) = mapExcept (fun x => f (g x)) xs := by
  induction xs with
  | nil => rfl
  | cons a as ih => simp only [List.map_cons, mapExcept, ih]

lemma mapExcept_ok_forall {α β : Type} (f : α → Except ExrError β)
    (xs : List α) (ys : List β) (h : mapExcept f xs = .ok ys) :
    ∀ y ∈ ys, ∃ x ∈ xs, f x = .ok y := by
  induction xs generalizing ys with
  | nil =>
    simp only [mapExcept, Except.ok.injEq] at h
    subst h
    intro y hy
    exact absurd hy (List.not_mem_nil y)
  | cons a as ih =>
    simp only [mapExcept] at h
    cases hfa : f a with
    | error e => rw [hfa] at h; simp at h
    | ok b =>
      rw [hfa] at h
      cases hrest : mapExcept f as with
      | error e => rw [hrest] at h; simp at h
      | ok bs =>
        rw [hrest] at h
        have hys : ys = b :: bs := by
          simp only [Except.ok.injEq] at h
          exact h.symm
        subst hys
        intro y hy
        rcases List.mem_cons.mp hy with rfl | hmem
        · exact ⟨a, List.mem_cons_self a as, hfa⟩
        · obtain ⟨x, hx, hfx⟩ := ih bs hrest y hmem
          exact ⟨x, List.mem_cons_of_mem a hx, hfx⟩

/-- The image that a buffer round trip rebuilds: the same layers up to the
chromaticities (dropped by the raw conversion in this snapshot) and the
channel width/height fields being re-derived from the layer. -/
def imageViaRust (img : ExrImage) : ExrImage :=
  { layers := img.layers.map layerViaRust, attributes := img.attributes }

lemma buffer_roundtrip (img : ExrImage)
    (hd : ∀ l ∈ img.layers, ∀ ch ∈ l.channels, ch.dtype = Dtype.float16 ∨
      ch.dtype = Dtype.float32 ∨ ch.dtype = Dtype.uint32)
    (hl : ∀ l ∈ img.layers, ∀ ch ∈ l.channels,
      ch.pixels.length = l.height * l.width) :
    ∃ buf, ExrImage.to_buffer img = .ok buf ∧
      ExrImage.from_buffer buf = .ok (imageViaRust img) := by
  have h1 : ExrImage.to_rust img =
      .ok { attributes := img.attributes,
            rustLayers := img.layers.map rustLayerOf } := by
    have hm := mapExcept_eq_map ExrLayer.to_rust rustLayerOf img.layers
      (fun l hlm => to_rust_ok l (hd l hlm))
    simp only [ExrImage.to_rust, hm]
  refine ⟨{ attributes := img.attributes,
            rustLayers := img.layers.map rustLayerOf }, ?_, ?_⟩
  · simp only [ExrImage.to_buffer, h1]
    rfl
  · have hm2 : mapExcept ExrLayer.from_rust (img.layers.map rustLayerOf) =
        .ok (img.layers.map layerViaRust) := by
      rw [mapExcept_map]
      exact mapExcept_eq_map _ _ img.layers
        (fun l hlm => from_rust_rustLayerOf l (hl l hlm))
    simp only [ExrImage.from_buffer, RustImage.load_from_buffer,
      ExrImage.from_rust, hm2, imageViaRust]

lemma from_rust_channel_invariant (r : RustLayer) (l : ExrLayer)
    (h : ExrLayer.from_rust r = .ok l) :
    ∀ ch ∈ l.channels, ch.pixels.length = ch.width * ch.height ∧
      (ch.dtype = Dtype.float16 ∨ ch.dtype = Dtype.float32 ∨
        ch.dtype = Dtype.uint32) := by
  rcases r with ⟨nm, wOpt, hOpt, attrs, cds⟩
  cases wOpt with
  | none => simp [ExrLayer.from_rust] at h
  | some w =>
    cases hOpt with
    | none => simp [ExrLayer.from_rust] at h
    | some hh =>
      simp only [ExrLayer.from_rust] at h
      split_ifs at h with hcond
      · simp only [Except.ok.injEq] at h
        subst h
        intro ch hch
        simp only [List.mem_map] at hch
        obtain ⟨cd, hcd, rfl⟩ := hch
        refine ⟨?_, toDtype_mem cd.dtype⟩
        have := hcond cd hcd
        simpa [Nat.mul_comm] using this

lemma fromPixelsCore_ok_inv (dt : Dtype) (shape : List Nat) (data : List Nat)
    (cr : Chromaticities) (img : ExrImage)
    (h : ExrImage.fromPixelsCore ⟨dt, shape, data⟩ cr = .ok img) :
    ∃ hh ww cc, shape = [hh, ww, cc] ∧ (cc = 3 ∨ cc = 4) ∧
      (dt = Dtype.float16 ∨ dt = Dtype.float32 ∨ dt = Dtype.uint32) ∧
      img = fromPixelsImage dt hh ww cc data cr := by
  rcases shape with _ | ⟨s1, _ | ⟨s2, _ | ⟨s3, _ | ⟨s4, rest⟩⟩⟩⟩
  · simp only [ExrImage.fromPixelsCore] at h
    split_ifs at h
  · simp only [ExrImage.fromPixelsCore] at h
    split_ifs at h
  · simp only [ExrImage.fromPixelsCore] at h
    split_ifs at h
  · simp only [ExrImage.fromPixelsCore] at h
    split_ifs at h with hdt hcc
    refine ⟨s1, s2, s3, rfl, hcc, hdt, ?_⟩
    simp only [Except.ok.injEq] at h
    rw [← h]
    rfl
  · simp only [ExrImage.fromPixelsCore] at h
    split_ifs at h

/-- The chromaticities each ExrImage.from_pixels dispatch path attaches:
AP0 for ACES 2065-1, AP1 for ACEScg and ACEScct, the sRGB primaries for
sRGB. -/
def chromaticitiesOf : Colorspace → Chromaticities
  | .sRGB => chromaticitiesSRGB
  | .ACES => chromaticitiesAP0
  | .ACEScg => chromaticitiesAP1
  | .ACEScct => chromaticitiesAP1

lemma from_pixels_ok_inv (dt : Dtype) (shape data : List Nat)
    (cs : Colorspace) (img : ExrImage)
    (h : ExrImage.from_pixels ⟨dt, shape, data⟩ cs = .ok img) :
    ∃ hh ww cc dt2, shape = [hh, ww, cc] ∧ (cc = 3 ∨ cc = 4) ∧
      (dt2 = Dtype.float16 ∨ dt2 = Dtype.float32 ∨ dt2 = Dtype.uint32) ∧
      img = fromPixelsImage dt2 hh ww cc data (chromaticitiesOf cs) := by
  cases cs with
  | ACES =>
    simp only [ExrImage.from_pixels, ExrImage.from_pixels_aces] at h
    split_ifs at h with hd
    obtain ⟨hh, ww, cc, h1, h2, h3, h4⟩ := fromPixelsCore_ok_inv _ _ _ _ _ h
    exact ⟨hh, ww, cc, dt, h1, h2, h3, h4⟩
  | ACEScg =>
    simp only [ExrImage.from_pixels, ExrImage.from_pixels_acescg] at h
    split_ifs at h with hd
    obtain ⟨hh, ww, cc, h1, h2, h3, h4⟩ := fromPixelsCore_ok_inv _ _ _ _ _ h
    exact ⟨hh, ww, cc, dt, h1, h2, h3, h4⟩
  | ACEScct =>
    simp only [ExrImage.from_pixels, ExrImage.from_pixels_acescct] at h
    split_ifs at h with hd
    obtain ⟨hh, ww, cc, h1, h2, h3, h4⟩ := fromPixelsCore_ok_inv _ _ _ _ _ h
    exact ⟨hh, ww, cc, dt, h1, h2, h3, h4⟩
  | sRGB =>
    simp only [ExrImage.from_pixels, ExrImage.from_pixels_srgb] at h
    by_cases h8 : dt = Dtype.uint8
    · rw [if_pos h8] at h
      obtain ⟨hh, ww, cc, h1, h2, h3, h4⟩ := fromPixelsCore_ok_inv _ _ _ _ _ h
      exact ⟨hh, ww, cc, Dtype.uint32, h1, h2, h3, h4⟩
    · rw [if_neg h8] at h
      obtain ⟨hh, ww, cc, h1, h2, h3, h4⟩ := fromPixelsCore_ok_inv _ _ _ _ _ h
      exact ⟨hh, ww, cc, dt, h1, h2, h3, h4⟩

lemma fromPixelsImage_channel_invariant (dt : Dtype) (hh ww cc : Nat)
    (data : List Nat) (cr : Chromaticities)
    (hdt : dt = Dtype.float16 ∨ dt = Dtype.float32 ∨ dt = Dtype.uint32) :
    ∀ l ∈ (fromPixelsImage dt hh ww cc data cr).layers, ∀ ch ∈ l.channels,
      ch.pixels.length = ch.width * ch.height ∧
        (ch.dtype = Dtype.float16 ∨ ch.dtype = Dtype.float32 ∨
          ch.dtype = Dtype.uint32) := by
  intro l hl ch hch
  simp only [fromPixelsImage, List.mem_singleton] at hl
  subst hl
  simp only [fromPixelsLayer, fromPixelsChannels, List.mem_map] at hch
  obtain ⟨p, hp, rfl⟩ := hch
  refine ⟨?_, hdt⟩
  simp [ndSelectChannel_length, Nat.mul_comm]

lemma from_buffer_channel_invariant (buf : RustImage) (img : ExrImage)
    (h : ExrImage.from_buffer buf = .ok img) :
    ∀ l ∈ img.layers, ∀ ch ∈ l.channels,
      ch.pixels.length = ch.width * ch.height ∧
        (ch.dtype = Dtype.float16 ∨ ch.dtype = Dtype.float32 ∨
          ch.dtype = Dtype.uint32) := by
  simp only [ExrImage.from_buffer, RustImage.load_from_buffer,
    ExrImage.from_rust] at h
  cases hm : mapExcept ExrLayer.from_rust buf.rustLayers with
  | error e => rw [hm] at h; simp at h
  | ok ls =>
    rw [hm] at h
    simp only [Except.ok.injEq] at h
    subst h
    intro l hl
    obtain ⟨r, hr, hok⟩ := mapExcept_ok_forall _ _ _ hm l hl
    exact from_rust_channel_invariant r l hok

/-- C10: for every pixel tensor, from_pixels_acescg and from_pixels_acescct
return structurally equal images: both assert a float16/float32 dtype and
both delegate to _from_pixels with the AP1 chromaticities, so their
layers, channels, chromaticities and attribute mappings coincide. -/
theorem c10_acescg_acescct_agree (p : NDArray) :
    ExrImage.from_pixels_acescg p = ExrImage.from_pixels_acescct p := rfl

/-- C2 counterexample: the claim quantifies over channel counts in
{1, 3, 4}, but a (1, 1, 1) float32 tensor is rejected by _from_pixels
with the UnsupportedChannelCount assert, so the round trip fails at
C = 1. -/
theorem c2_counterexample_single_channel :
    ExrImage.from_pixels ⟨Dtype.float32, [1, 1, 1], [5]⟩ Colorspace.sRGB =
      .error .unsupportedChannelCount := rfl

/-- C2 (amended): for every (H, W, C) tensor with C in {3, 4} and dtype in
{float16, float32, uint32}, to_pixels(from_pixels(T)) returns exactly T,
bit for bit: no numeric transform is applied by the conversion. -/
theorem c2_roundtrip_three_four_channels (dt : Dtype) (h w c : Nat)
    (data : List Nat)
    (hdt : dt = Dtype.float16 ∨ dt = Dtype.float32 ∨ dt = Dtype.uint32)
    (hc : c = 3 ∨ c = 4) (hlen : data.length = h * w * c) :
    ∃ img, ExrImage.from_pixels ⟨dt, [h, w, c], data⟩ Colorspace.sRGB =
        .ok img ∧
      ExrImage.to_pixels img = .ok ⟨dt, [h, w, c], data⟩ := by
  have hne8 : dt ≠ Dtype.uint8 := by rcases hdt with rfl | rfl | rfl <;> simp
  refine ⟨fromPixelsImage dt h w c data chromaticitiesSRGB, ?_, ?_⟩
  · simp only [ExrImage.from_pixels, ExrImage.from_pixels_srgb]
    rw [if_neg hne8]
    exact fromPixelsCore_ok dt h w c data _ hdt hc
  · exact to_pixels_fromPixelsImage dt h w c data _ hc hlen

/-- C2 witness: the round trip evaluated at a concrete (1, 1, 3) float32
tensor. -/
theorem c2_roundtrip_three_four_channels_witness :
    ∃ img, ExrImage.from_pixels ⟨Dtype.float32, [1, 1, 3], [10, 20, 30]⟩
        Colorspace.sRGB = .ok img ∧
      ExrImage.to_pixels img =
        .ok ⟨Dtype.float32, [1, 1, 3], [10, 20, 30]⟩ :=
  c2_roundtrip_three_four_channels Dtype.float32 1 1 3 [10, 20, 30]
    (Or.inr (Or.inl rfl)) (Or.inl rfl) (by decide)

/-- C4 counterexample: the claim says every tensor with C = 1 is accepted,
but _from_pixels asserts C in [3, 4], so a (2, 2, 1) float32 tensor fails
with UnsupportedChannelCount. -/
theorem c4_counterexample_one_channel :
    ExrImage.from_pixels ⟨Dtype.float32, [2, 2, 1], [0, 0, 0, 0]⟩
      Colorspace.sRGB = .error .unsupportedChannelCount := rfl

/-- C4 (amended): for every rank-3 tensor of supported dtype, from_pixels
succeeds exactly when the trailing channel count is 3 or 4, and fails
with the UnsupportedChannelCount error for every other channel count,
including 1. -/
theorem c4_channel_count_gate (dt : Dtype) (h w c : Nat) (data : List Nat)
    (hdt : dt = Dtype.float16 ∨ dt = Dtype.float32 ∨ dt = Dtype.uint32) :
    ((c = 3 ∨ c = 4) → ∃ img,
      ExrImage.from_pixels ⟨dt, [h, w, c], data⟩ Colorspace.sRGB = .ok img) ∧
    (¬(c = 3 ∨ c = 4) →
      ExrImage.from_pixels ⟨dt, [h, w, c], data⟩ Colorspace.sRGB =
        .error .unsupportedChannelCount) := by
  have hne8 : dt ≠ Dtype.uint8 := by rcases hdt with rfl | rfl | rfl <;> simp
  constructor
  · intro hc
    refine ⟨fromPixelsImage dt h w c data chromaticitiesSRGB, ?_⟩
    simp only [ExrImage.from_pixels, ExrImage.from_pixels_srgb]
    rw [if_neg hne8]
    exact fromPixelsCore_ok dt h w c data _ hdt hc
  · intro hcc
    simp only [ExrImage.from_pixels, ExrImage.from_pixels_srgb]
    rw [if_neg hne8]
    rcases hdt with rfl | rfl | rfl <;>
      simp [ExrImage.fromPixelsCore, hcc]

/-- C4 witness: a concrete instance of each half of the amended claim, at
channel counts 3 and 2. -/
theorem c4_channel_count_gate_witness :
    (∃ img, ExrImage.from_pixels ⟨Dtype.float16, [1, 1, 3], [0, 0, 0]⟩
        Colorspace.sRGB = .ok img) ∧
    ExrImage.from_pixels ⟨Dtype.float16, [1, 1, 2], [0, 0]⟩ Colorspace.sRGB =
      .error .unsupportedChannelCount :=
  ⟨(c4_channel_count_gate Dtype.float16 1 1 3 [0, 0, 0] (Or.inl rfl)).1
      (Or.inl rfl),
    (c4_channel_count_gate Dtype.float16 1 1 2 [0, 0] (Or.inl rfl)).2
      (by decide)⟩

/-- C5: the from_pixels of this snapshot has no layer_names parameter and
unpacks the array shape as exactly three values, so the rank-4 call the
claim (and the test suite) describes fails up front: a (3, 2, 2, 1)
float32 tensor is rejected with a ValueError instead of producing three
named layers. -/
theorem c5_from_pixels_rank4_value_error :
    ExrImage.from_pixels
      ⟨Dtype.float32, [3, 2, 2, 1], List.replicate 12 0⟩ Colorspace.sRGB =
      .error .valueError := rfl

/-- C6 counterexample: the claim says that for the default sRGB tag no
identifying container flag is stamped, but _from_pixels unconditionally
sets the attribute "Aces Image Container Flag" = 1, also on the sRGB
path. -/
theorem c6_counterexample_srgb_flag :
    ExrImage.from_pixels ⟨Dtype.float32, [1, 1, 3], [1, 2, 3]⟩
        Colorspace.sRGB =
      .ok (fromPixelsImage Dtype.float32 1 1 3 [1, 2, 3]
        chromaticitiesSRGB) ∧
    (fromPixelsImage Dtype.float32 1 1 3 [1, 2, 3]
        chromaticitiesSRGB).attributes =
      [("Aces Image Container Flag", AttrValue.int 1)] := ⟨rfl, rfl⟩

/-- C6 (amended): for every tensor accepted by from_pixels, the produced
layer carries the chromaticities of the requested colorspace tag (sRGB
primaries by default, AP0 for ACES 2065-1, AP1 for ACEScg and ACEScct),
and the image attributes always consist of the single flag
"Aces Image Container Flag" = 1, for every tag including the default
sRGB; the stamped flag is identical for all tags and does not identify
which colorspace was requested. -/
theorem c6_chromaticities_and_flag (p : NDArray) (cs : Colorspace)
    (img : ExrImage) (h : ExrImage.from_pixels p cs = .ok img) :
    (∀ l ∈ img.layers, l.chromaticities = some (chromaticitiesOf cs)) ∧
    img.attributes = [("Aces Image Container Flag", AttrValue.int 1)] := by
  rcases p with ⟨dt, shape, data⟩
  obtain ⟨hh, ww, cc, dt2, h1, h2, h3, rfl⟩ :=
    from_pixels_ok_inv dt shape data cs img h
  refine ⟨?_, rfl⟩
  intro l hl
  simp only [fromPixelsImage, List.mem_singleton] at hl
  subst hl
  rfl

/-- C6 witness: the amended claim evaluated at a concrete ACEScg call. -/
theorem c6_chromaticities_and_flag_witness :
    (∀ l ∈ (fromPixelsImage Dtype.float16 1 1 3 [4, 5, 6]
        chromaticitiesAP1).layers,
      l.chromaticities = some (chromaticitiesOf Colorspace.ACEScg)) ∧
    (fromPixelsImage Dtype.float16 1 1 3 [4, 5, 6]
        chromaticitiesAP1).attributes =
      [("Aces Image Container Flag", AttrValue.int 1)] :=
  c6_chromaticities_and_flag ⟨Dtype.float16, [1, 1, 3], [4, 5, 6]⟩
    Colorspace.ACEScg
    (fromPixelsImage Dtype.float16 1 1 3 [4, 5, 6] chromaticitiesAP1) rfl

/-- C9 counterexample: the claim says a uint8 tensor is promoted to
uint32 under any requested colorspace tag, but the ACEScg path asserts a
float16/float32 dtype and rejects a uint8 tensor with UnsupportedDtype
instead of promoting it. -/
theorem c9_counterexample_uint8_acescg :
    ExrImage.from_pixels ⟨Dtype.uint8, [1, 1, 3], [0, 0, 0]⟩
      Colorspace.ACEScg = .error .unsupportedDtype := rfl

/-- C9 (amended): a uint8 tensor is promoted to uint32 only on the
default sRGB path, where every channel of the resulting image has dtype
uint32; under the ACES-family tags (ACES 2065-1, ACEScg, ACEScct) a
uint8 tensor is rejected with UnsupportedDtype. -/
theorem c9_uint8_promotion_only_srgb (h w c : Nat) (data : List Nat)
    (hc : c = 3 ∨ c = 4) :
    (∃ img, ExrImage.from_pixels ⟨Dtype.uint8, [h, w, c], data⟩
        Colorspace.sRGB = .ok img ∧
      ∀ l ∈ img.layers, ∀ ch ∈ l.channels, ch.dtype = Dtype.uint32) ∧
    (∀ cs, cs ≠ Colorspace.sRGB →
      ExrImage.from_pixels ⟨Dtype.uint8, [h, w, c], data⟩ cs =
        .error .unsupportedDtype) := by
  constructor
  · refine ⟨fromPixelsImage Dtype.uint32 h w c data chromaticitiesSRGB,
      ?_, ?_⟩
    · simp only [ExrImage.from_pixels, ExrImage.from_pixels_srgb, if_true]
      exact fromPixelsCore_ok Dtype.uint32 h w c data _
        (Or.inr (Or.inr rfl)) hc
    · intro l hl ch hch
      simp only [fromPixelsImage, List.mem_singleton] at hl
      subst hl
      simp only [fromPixelsLayer, fromPixelsChannels, List.mem_map] at hch
      obtain ⟨p, hp, rfl⟩ := hch
      rfl
  · intro cs hcs
    cases cs with
    | sRGB => exact absurd rfl hcs
    | ACES => rfl
    | ACEScg => rfl
    | ACEScct => rfl

/-- C9 witness: the amended claim evaluated at a concrete (1, 1, 3) uint8
tensor. -/
theorem c9_uint8_promotion_only_srgb_witness :
    (∃ img, ExrImage.from_pixels ⟨Dtype.uint8, [1, 1, 3], [7, 8, 9]⟩
        Colorspace.sRGB = .ok img ∧
      ∀ l ∈ img.layers, ∀ ch ∈ l.channels, ch.dtype = Dtype.uint32) ∧
    (∀ cs, cs ≠ Colorspace.sRGB →
      ExrImage.from_pixels ⟨Dtype.uint8, [1, 1, 3], [7, 8, 9]⟩ cs =
        .error .unsupportedDtype) :=
  c9_uint8_promotion_only_srgb 1 1 3 [7, 8, 9] (Or.inl rfl)

lemma to_pixels_single_layer_ok (attrs lat : List (String × AttrValue))
    (w h : Nat) (ch0 : ExrChannel) (rest : List ExrChannel)
    (nm : Option String) (crs : Option Chromaticities)
    (hlen : ∀ ch ∈ ch0 :: rest, ch.pixels.length = h * w) :
    ExrImage.to_pixels
      ⟨[⟨w, h, ch0 :: rest, nm, lat, crs⟩], attrs⟩ =
      .ok ⟨ch0.dtype, [h, w, (ch0 :: rest).length],
        npStackLastAxis (h * w) ((ch0 :: rest).map (fun ch => ch.pixels))⟩ := by
  simp only [ExrImage.to_pixels]
  rw [if_pos hlen]

/-- Test fixture: a 1 x 1 float32 channel. -/
def rgbTestChannel (nm : String) (v : Nat) : ExrChannel :=
  ⟨nm, 1, 1, Dtype.float32, [v]⟩

/-- Test fixture: a 1 x 1 layer with channels stored in order R, G, B. -/
def rgbTestLayer : ExrLayer :=
  ⟨1, 1, [rgbTestChannel "R" 42, rgbTestChannel "G" 43,
    rgbTestChannel "B" 44], none, [], none⟩

/-- Test fixture: a single-layer image. -/
def rgbTestImage : ExrImage := ⟨[rgbTestLayer], []⟩

/-- Test fixture: a two-layer image whose layers agree on width, height
and channel count. -/
def rgbTestImage2 : ExrImage := ⟨[rgbTestLayer, rgbTestLayer], []⟩

/-- C1 counterexample: on an image with two layers that agree on width,
height and channel count, the claim says to_pixels returns a stacked
(2, height, width, channelCount) tensor, but to_pixels asserts the image
has exactly one layer and fails with the ambiguous-reference error. -/
theorem c1_counterexample_two_layers :
    ExrImage.to_pixels rgbTestImage2 = .error .ambiguousLayerReference := rfl

/-- C1 (amended): to_pixels succeeds only on single-layer images, where
it returns a tensor of shape (height, width, channelCount) with the
channel axis matching stored channel order; on an image with two or more
layers it fails with the ambiguous-reference error instead of stacking
the layers. -/
theorem c1_to_pixels_single_layer_only :
    (∀ (attrs : List (String × AttrValue)) (L : ExrLayer),
      L.channels ≠ [] →
      (∀ ch ∈ L.channels, ch.pixels.length = L.height * L.width) →
      ∃ t : NDArray,
        ExrImage.to_pixels ⟨[L], attrs⟩ = .ok t ∧
        t.shape = [L.height, L.width, L.channels.length] ∧
        ∀ i, i < L.height * L.width → ∀ k, k < L.channels.length →
          t.data.getD (i * L.channels.length + k) 0 =
            ((L.channels.map (fun ch => ch.pixels)).getD k []).getD i 0) ∧
    (∀ img : ExrImage, 2 ≤ img.layers.length →
      ExrImage.to_pixels img = .error .ambiguousLayerReference) := by
  constructor
  · intro attrs L hne hlen
    rcases L with ⟨w, h, chs, nm, lat, crs⟩
    cases chs with
    | nil => exact absurd rfl hne
    | cons ch0 rest =>
      refine ⟨_, to_pixels_single_layer_ok attrs lat w h ch0 rest nm crs hlen,
        rfl, ?_⟩
      intro i hi k hk
      have hplanes : ((ch0 :: rest).map (fun ch => ch.pixels)).length =
          (ch0 :: rest).length := List.length_map _ _
      calc (npStackLastAxis (h * w)
            ((ch0 :: rest).map (fun ch => ch.pixels))).getD
              (i * (ch0 :: rest).length + k) 0
          = (npStackLastAxis (h * w)
              ((ch0 :: rest).map (fun ch => ch.pixels))).getD
              (i * ((ch0 :: rest).map (fun ch => ch.pixels)).length + k) 0 := by
            rw [hplanes]
        _ = (((ch0 :: rest).map (fun ch => ch.pixels)).getD k []).getD i 0 :=
            npStackLastAxis_getD (h * w) _ i k hi (by rw [hplanes]; exact hk)
  · intro img hge
    rcases img with ⟨layers, attrs⟩
    rcases layers with _ | ⟨l1, _ | ⟨l2, rest⟩⟩
    · simp at hge
    · simp at hge
    · rfl

/-- C1 witness: both halves of the amended claim at concrete images: the
single-layer R, G, B fixture and the two-layer fixture. -/
theorem c1_to_pixels_single_layer_only_witness :
    (∃ t : NDArray,
      ExrImage.to_pixels rgbTestImage = .ok t ∧
      t.shape = [rgbTestLayer.height, rgbTestLayer.width,
        rgbTestLayer.channels.length] ∧
      ∀ i, i < rgbTestLayer.height * rgbTestLayer.width →
        ∀ k, k < rgbTestLayer.channels.length →
        t.data.getD (i * rgbTestLayer.channels.length + k) 0 =
          ((rgbTestLayer.channels.map (fun ch => ch.pixels)).getD k []).getD
            i 0) ∧
    ExrImage.to_pixels rgbTestImage2 = .error .ambiguousLayerReference :=
  ⟨c1_to_pixels_single_layer_only.1 [] rgbTestLayer (by decide) (by decide),
    c1_to_pixels_single_layer_only.2 rgbTestImage2 (by decide)⟩

lemma layerViaRust_channel_names (l : ExrLayer) :
    (layerViaRust l).channels.map (fun ch => ch.name) =
      l.channels.map (fun ch => ch.name) := by
  simp [layerViaRust, List.map_map, Function.comp]

/-- C7: encoding an image whose single layer stores its channels in order
R, G, B and decoding the buffer again yields a layer whose channels are
still in order R, G, B: the model pushes channels in stored order, and
the codec adapter returns them in the caller-supplied order. -/
theorem c7_channel_order_roundtrip (img : ExrImage) (L : ExrLayer)
    (hl : img.layers = [L])
    (hnames : L.channels.map (fun ch => ch.name) = ["R", "G", "B"])
    (hd : ∀ ch ∈ L.channels, ch.dtype = Dtype.float16 ∨
      ch.dtype = Dtype.float32 ∨ ch.dtype = Dtype.uint32)
    (hlen : ∀ ch ∈ L.channels, ch.pixels.length = L.height * L.width) :
    ∃ buf img2, ExrImage.to_buffer img = .ok buf ∧
      ExrImage.from_buffer buf = .ok img2 ∧
      img2.layers.map (fun l => l.channels.map (fun ch => ch.name)) =
        [["R", "G", "B"]] := by
  obtain ⟨buf, h1, h2⟩ := buffer_roundtrip img
    (by
      intro l hlm ch hch
      rw [hl, List.mem_singleton] at hlm
      subst hlm
      exact hd ch hch)
    (by
      intro l hlm ch hch
      rw [hl, List.mem_singleton] at hlm
      subst hlm
      exact hlen ch hch)
  refine ⟨buf, imageViaRust img, h1, h2, ?_⟩
  simp [imageViaRust, hl, layerViaRust_channel_names, hnames]

/-- C7 witness: the round trip at the concrete single-layer R, G, B
fixture. -/
theorem c7_channel_order_roundtrip_witness :
    ∃ buf img2, ExrImage.to_buffer rgbTestImage = .ok buf ∧
      ExrImage.from_buffer buf = .ok img2 ∧
      img2.layers.map (fun l => l.channels.map (fun ch => ch.name)) =
        [["R", "G", "B"]] :=
  c7_channel_order_roundtrip rgbTestImage rgbTestLayer rfl (by decide)
    (by decide) (by decide)

/-- C8: every channel of an image produced by the public constructors,
tensor conversion through from_pixels (under any colorspace tag) or
decoding a buffer through from_buffer, holds exactly width * height
samples and has one of the dtypes float16, float32, uint32. -/
theorem c8_channel_invariant (img : ExrImage)
    (h : (∃ p cs, ExrImage.from_pixels p cs = .ok img) ∨
      (∃ buf, ExrImage.from_buffer buf = .ok img)) :
    ∀ l ∈ img.layers, ∀ ch ∈ l.channels,
      ch.pixels.length = ch.width * ch.height ∧
        (ch.dtype = Dtype.float16 ∨ ch.dtype = Dtype.float32 ∨
          ch.dtype = Dtype.uint32) := by
  rcases h with ⟨p, cs, hok⟩ | ⟨buf, hok⟩
  · rcases p with ⟨dt, shape, data⟩
    obtain ⟨hh, ww, cc, dt2, h1, h2, h3, rfl⟩ :=
      from_pixels_ok_inv dt shape data cs img hok
    exact fromPixelsImage_channel_invariant dt2 hh ww cc data _ h3
  · exact from_buffer_channel_invariant buf img hok

/-- C8 witness: the invariant read off the R channel of the image built
from a concrete (1, 1, 3) float32 tensor. -/
theorem c8_channel_invariant_witness :
    ([1] : List Nat).length = 1 * 1 ∧
      (Dtype.float32 = Dtype.float16 ∨ Dtype.float32 = Dtype.float32 ∨
        Dtype.float32 = Dtype.uint32) :=
  c8_channel_invariant
    (fromPixelsImage Dtype.float32 1 1 3 [1, 2, 3] chromaticitiesSRGB)
    (Or.inl ⟨⟨Dtype.float32, [1, 1, 3], [1, 2, 3]⟩, Colorspace.sRGB, rfl⟩)
    (fromPixelsLayer Dtype.float32 1 1 3 [1, 2, 3] chromaticitiesSRGB)
    (by decide)
    ⟨"R", 1, 1, Dtype.float32, [1]⟩
    (by decide)

lemma findContainerFlag_eq_none (attrs : List (String × AttrValue))
    (h : ∀ p ∈ attrs, p.1 ≠ containerFlagKey) :
    findContainerFlag attrs = none := by
  unfold findContainerFlag
  rw [List.findSome?_eq_none_iff]
  intro p hp
  rw [if_neg (h p hp)]

lemma tagOfChromaticities_AP0 :
    tagOfChromaticities chromaticitiesAP0 = some Colorspace.ACES := by decide

lemma tagOfChromaticities_AP1 :
    tagOfChromaticities chromaticitiesAP1 = some Colorspace.ACEScg := by decide

lemma tagOfChromaticities_unknown (cr : Chromaticities)
    (h0 : cr ≠ chromaticitiesAP0) (h1 : cr ≠ chromaticitiesAP1)
    (h2 : cr ≠ chromaticitiesSRGB) : tagOfChromaticities cr = none := by
  unfold tagOfChromaticities
  rw [if_neg h0, if_neg h1, if_neg h2]

/-- C3: the classifier follows the two-tier, first-match-wins algorithm.
On a single-layer image with no recognized container flag: AP0 primaries
classify as ACES 2065-1, AP1 primaries classify as ACEScg, and
primaries matching no table entry classify as unknown (none, not an
error); with an explicit ACEScct container flag present on the layer,
the flag wins regardless of the primaries. -/
theorem c3_classifier_two_tier (img : ExrImage) (L : ExrLayer)
    (hl : img.layers = [L])
    (hno : ∀ p ∈ img.attributes, p.1 ≠ containerFlagKey) :
    ((∀ p ∈ L.attributes, p.1 ≠ containerFlagKey) →
      ((L.chromaticities = some chromaticitiesAP0 →
        ExrImage.inferred_colorspace img = some Colorspace.ACES) ∧
      (L.chromaticities = some chromaticitiesAP1 →
        ExrImage.inferred_colorspace img = some Colorspace.ACEScg) ∧
      (∀ cr, L.chromaticities = some cr → cr ≠ chromaticitiesAP0 →
        cr ≠ chromaticitiesAP1 → cr ≠ chromaticitiesSRGB →
        ExrImage.inferred_colorspace img = none))) ∧
    (findContainerFlag L.attributes = some Colorspace.ACEScct →
      ExrImage.inferred_colorspace img = some Colorspace.ACEScct) := by
  have himg : findContainerFlag img.attributes = none :=
    findContainerFlag_eq_none _ hno
  constructor
  · intro hnoL
    have hL : findContainerFlag L.attributes = none :=
      findContainerFlag_eq_none _ hnoL
    refine ⟨?_, ?_, ?_⟩
    · intro hcr
      simp [ExrImage.inferred_colorspace, himg, hl, hL, hcr,
        tagOfChromaticities_AP0]
    · intro hcr
      simp [ExrImage.inferred_colorspace, himg, hl, hL, hcr,
        tagOfChromaticities_AP1]
    · intro cr hcr h0 h1 h2
      simp [ExrImage.inferred_colorspace, himg, hl, hL, hcr,
        tagOfChromaticities_unknown cr h0 h1 h2]
  · intro hflag
    simp [ExrImage.inferred_colorspace, himg, hl, hflag]

/-- Test fixture: a single-layer image carrying the given chromaticities
and layer attributes, with no image-level attributes. -/
def taggedImage (cr : Option Chromaticities)
    (lattrs : List (String × AttrValue)) : ExrImage :=
  ⟨[⟨1, 1, [], none, lattrs, cr⟩], []⟩

/-- C3 witness: the four classifications of the claim at concrete
images: AP0 with no flag, AP1 with no flag, AP1 with an explicit ACEScct
flag, and unmatched primaries. -/
theorem c3_classifier_two_tier_witness :
    ExrImage.inferred_colorspace (taggedImage (some chromaticitiesAP0) []) =
      some Colorspace.ACES ∧
    ExrImage.inferred_colorspace (taggedImage (some chromaticitiesAP1) []) =
      some Colorspace.ACEScg ∧
    ExrImage.inferred_colorspace (taggedImage (some chromaticitiesAP1)
      [(containerFlagKey, AttrValue.str "ACEScct")]) =
      some Colorspace.ACEScct ∧
    ExrImage.inferred_colorspace
      (taggedImage (some ⟨(0, 0), (0, 0), (0, 0), (0, 0)⟩) []) = none :=
  ⟨((c3_classifier_two_tier (taggedImage (some chromaticitiesAP0) [])
      ⟨1, 1, [], none, [], some chromaticitiesAP0⟩ rfl (by decide)).1
      (by decide)).1 rfl,
   ((c3_classifier_two_tier (taggedImage (some chromaticitiesAP1) [])
      ⟨1, 1, [], none, [], some chromaticitiesAP1⟩ rfl (by decide)).1
      (by decide)).2.1 rfl,
   (c3_classifier_two_tier (taggedImage (some chromaticitiesAP1)
      [(containerFlagKey, AttrValue.str "ACEScct")])
      ⟨1, 1, [], none, [(containerFlagKey, AttrValue.str "ACEScct")],
        some chromaticitiesAP1⟩ rfl (by decide)).2 (by decide),
   ((c3_classifier_two_tier
      (taggedImage (some ⟨(0, 0), (0, 0), (0, 0), (0, 0)⟩) [])
      ⟨1, 1, [], none, [], some ⟨(0, 0), (0, 0), (0, 0), (0, 0)⟩⟩ rfl
      (by decide)).1 (by decide)).2.2
      ⟨(0, 0), (0, 0), (0, 0), (0, 0)⟩ rfl (by decide) (by decide)
      (by decide)⟩
